import Mathlib

/-!
Shallow embedding of the safety-and-prediction subsystem of the
`image_preview` repository: file-locality classification
(`src/file_locality.rs`, `src/onedrive.rs`), the benchmarking and
capability-aggregation code (`src/benchmark.rs`), the render-time
estimator (`src/image_processing.rs`), and the application-level state
updates (`src/app.rs`).

Modelling conventions:
* `f64` values are embedded as `ℚ` (all arithmetic the claims exercise is
  exact: sums, divisions, comparisons).
* A file's observable state is a `FileMeta` record: the outcome of a
  metadata stat (Windows attribute bits and byte length), the outcome of
  a header-only dimension probe, the outcome of a full decode, the path
  extension, and whether the path string contains "onedrive"/"sharepoint".
* The platform `cfg(windows)` split is a boolean parameter `windows`.
* Functions that in Rust may open a file's header or content return an
  extra `Bool` recording whether the open call was reached, so that
  "never opens the file" claims are statable.
* Wall-clock durations are inputs (a timing oracle), since the claims
  only constrain which constant timings appear in short-circuit results.
* `HashMap<String, f64>` is embedded as an association list, built in
  first-occurrence order (deterministic; the source's iteration order is
  unspecified but no claim depends on it).
-/

/-- Result of a successful `std::fs::metadata` call: the Windows file
attribute bits and the reported byte length. -/
structure FsMetadata where
  attributes : Nat
  len : Nat
deriving DecidableEq, Repr

/-- Observable state of one file path, as consulted by the embedded
functions. `metadata = none` models a failing stat; `dims = none` models
`ImageReader::open(..).into_dimensions()` failing; `decode = none`
models a failing full decode (`some (w, h)` gives the decoded size). -/
structure FileMeta where
  metadata : Option FsMetadata
  dims : Option (Nat × Nat)
  decode : Option (Nat × Nat)
  textureOk : Bool
  ext : Option String
  pathHasOneDrive : Bool
deriving DecidableEq, Repr

/-- FileLocalityStatus from `src/file_locality.rs`. -/
inductive FileLocalityStatus where
  | Local
  | OnDemand
  | Unknown
deriving DecidableEq, Repr

/-- FILE_ATTRIBUTE_RECALL_ON_DATA_ACCESS from `src/file_locality.rs`. -/
def FILE_ATTRIBUTE_RECALL_ON_DATA_ACCESS : Nat := 0x00400000

/-- FILE_ATTRIBUTE_UNPINNED from `src/file_locality.rs`. -/
def FILE_ATTRIBUTE_UNPINNED : Nat := 0x00100000

/-- FILE_ATTRIBUTE_RECALL_ON_OPEN from `src/onedrive.rs`. -/
def FILE_ATTRIBUTE_RECALL_ON_OPEN : Nat := 0x00040000

/-- get_file_locality_status from `src/file_locality.rs` (both `cfg`
variants: `windows = true` reads the attribute bits, otherwise the
function is the constant `Local`). -/
def get_file_locality_status (windows : Bool) (f : FileMeta) : FileLocalityStatus :=
  if windows then
    match f.metadata with
    | some m =>
        let is_unpinned := m.attributes &&& FILE_ATTRIBUTE_UNPINNED != 0
        let has_recall_on_data_access := m.attributes &&& FILE_ATTRIBUTE_RECALL_ON_DATA_ACCESS != 0
        if is_unpinned && has_recall_on_data_access then FileLocalityStatus.OnDemand
        else if !is_unpinned && !has_recall_on_data_access then FileLocalityStatus.Local
        else FileLocalityStatus.Unknown
    | none => FileLocalityStatus.Unknown
  else FileLocalityStatus.Local

/-- FileInfo from `src/file_locality.rs` (path omitted: each record is
paired with its `FileMeta` where needed). -/
structure LocalityFileInfo where
  locality_status : FileLocalityStatus
  estimated_download_size : Option Nat
deriving DecidableEq, Repr

/-- FileInfo::new from `src/file_locality.rs`. -/
def LocalityFileInfo.new (windows : Bool) (f : FileMeta) : LocalityFileInfo :=
  let locality_status := get_file_locality_status windows f
  let estimated_download_size :=
    if locality_status = FileLocalityStatus.OnDemand then
      (f.metadata).map FsMetadata.len
    else none
  { locality_status, estimated_download_size }

/-- FileInfo::will_trigger_download from `src/file_locality.rs`. -/
def LocalityFileInfo.will_trigger_download (fi : LocalityFileInfo) : Bool :=
  fi.locality_status = FileLocalityStatus.OnDemand

/-- OneDriveFileStatus from `src/onedrive.rs`. -/
inductive OneDriveFileStatus where
  | Local
  | OnlineOnly
  | PartDownloaded
  | NotOneDrive
deriving DecidableEq, Repr

/-- get_onedrive_file_status from `src/onedrive.rs` (both `cfg`
variants; `PartDownloaded` embeds the source's partially-downloaded
state). -/
def get_onedrive_file_status (windows : Bool) (f : FileMeta) : OneDriveFileStatus :=
  if windows then
    if !f.pathHasOneDrive then OneDriveFileStatus.NotOneDrive
    else
      match f.metadata with
      | some m =>
          if m.attributes &&& FILE_ATTRIBUTE_RECALL_ON_DATA_ACCESS != 0 then
            OneDriveFileStatus.OnlineOnly
          else if m.attributes &&& FILE_ATTRIBUTE_RECALL_ON_OPEN != 0 then
            OneDriveFileStatus.PartDownloaded
          else OneDriveFileStatus.Local
      | none => OneDriveFileStatus.Local
  else OneDriveFileStatus.NotOneDrive

/-- FileInfo from `src/onedrive.rs`. -/
structure OneDriveFileInfo where
  onedrive_status : OneDriveFileStatus
  estimated_download_size : Option Nat
deriving DecidableEq, Repr

/-- FileInfo::new from `src/onedrive.rs`. -/
def OneDriveFileInfo.new (windows : Bool) (f : FileMeta) : OneDriveFileInfo :=
  let onedrive_status := get_onedrive_file_status windows f
  let estimated_download_size :=
    if onedrive_status = OneDriveFileStatus.OnlineOnly ∨
        onedrive_status = OneDriveFileStatus.PartDownloaded then
      (f.metadata).map FsMetadata.len
    else none
  { onedrive_status, estimated_download_size }

/-- FileInfo::will_trigger_download from `src/onedrive.rs`. -/
def OneDriveFileInfo.will_trigger_download (fi : OneDriveFileInfo) : Bool :=
  fi.onedrive_status = OneDriveFileStatus.OnlineOnly ∨
    fi.onedrive_status = OneDriveFileStatus.PartDownloaded

/-- Extension handling shared by `src/benchmark.rs` and
`src/image_processing.rs`:
`path.extension().and_then(to_str).unwrap_or("unknown").to_lowercase()`. -/
def formatOf (f : FileMeta) : String :=
  (f.ext.getD "unknown").toLower

/-- File size in megabytes as computed throughout the source:
`std::fs::metadata(path).map(|m| m.len() as f64 / (1024.0*1024.0)).unwrap_or(0.0)`. -/
def fileSizeMb (f : FileMeta) : ℚ :=
  match f.metadata with
  | some m => (m.len : ℚ) / (1024 * 1024)
  | none => 0

/-- ImageCharacteristics from `src/benchmark.rs`. -/
structure ImageCharacteristics where
  file_size_mb : ℚ
  width : Nat
  height : Nat
  megapixels : ℚ
  format : String
  bit_depth : Option Nat
deriving DecidableEq, Repr

/-- ImageCharacteristics::new from `src/benchmark.rs`. -/
def ImageCharacteristics.new (f : FileMeta) (width height : Nat) (format : String) :
    ImageCharacteristics :=
  { file_size_mb := fileSizeMb f
    width, height
    megapixels := ((width : ℚ) * (height : ℚ)) / 1000000
    format
    bit_depth := none }

/-- BenchmarkResult from `src/benchmark.rs`. -/
structure BenchmarkResult where
  characteristics : ImageCharacteristics
  decode_time_ms : ℚ
  texture_creation_time_ms : ℚ
  total_time_ms : ℚ
  success : Bool
  error_message : Option String
deriving DecidableEq, Repr

/-- SystemCapabilities from `src/benchmark.rs`; the format map is an
association list in first-occurrence order. -/
structure SystemCapabilities where
  max_successful_megapixels : ℚ
  avg_decode_time_per_mp : ℚ
  avg_texture_time_per_mp : ℚ
  format_performance : List (String × ℚ)
deriving DecidableEq, Repr

/-- PerformanceProfile from `src/benchmark.rs` (`Instant` embedded as
`Nat`; `reference_comparison` carries no data any claim consults). -/
structure PerformanceProfile where
  benchmark_results : List BenchmarkResult
  system_capabilities : SystemCapabilities
  last_benchmark_time : Option Nat
  reference_comparison : Option Unit
deriving DecidableEq, Repr

/-- Default for PerformanceProfile from `src/benchmark.rs`. -/
def PerformanceProfile.default : PerformanceProfile :=
  { benchmark_results := []
    system_capabilities :=
      { max_successful_megapixels := 0
        avg_decode_time_per_mp := 0
        avg_texture_time_per_mp := 0
        format_performance := [] }
    last_benchmark_time := none
    reference_comparison := none }

/-- The `successful_results` filter inside
`PerformanceProfile::update_system_capabilities`. -/
def successfulResults (l : List BenchmarkResult) : List BenchmarkResult :=
  l.filter (fun r => r.success)

/-- Accumulate one result into the per-format `(total_time, total_mp)`
statistics (`format_stats.entry(..).or_insert((0.0, 0.0))` in the
source). -/
def addFormatStat (acc : List (String × ℚ × ℚ)) (fmt : String) (t mp : ℚ) :
    List (String × ℚ × ℚ) :=
  match acc with
  | [] => [(fmt, t, mp)]
  | (k, t0, mp0) :: rest =>
      if k = fmt then (k, t0 + t, mp0 + mp) :: rest
      else (k, t0, mp0) :: addFormatStat rest fmt t mp

/-- Per-format `(total_time, total_mp)` over a result list, as built by
the loop in `update_system_capabilities`. -/
def formatStats (l : List BenchmarkResult) : List (String × ℚ × ℚ) :=
  l.foldl
    (fun acc r =>
      addFormatStat acc r.characteristics.format r.total_time_ms r.characteristics.megapixels)
    []

/-- The rebuilt `format_performance` map: `total_time / total_mp` for
each format whose `total_mp > 0.0`. -/
def formatPerformance (l : List BenchmarkResult) : List (String × ℚ) :=
  (formatStats l).filterMap
    (fun x => if 0 < x.2.2 then some (x.1, x.2.1 / x.2.2) else none)

/-- The `fold(0.0, f64::max)` over successful megapixels. -/
def maxMegapixels (l : List BenchmarkResult) : ℚ :=
  (l.map (fun r => r.characteristics.megapixels)).foldl max 0

/-- Sum of megapixels over a result list. -/
def totalMegapixels (l : List BenchmarkResult) : ℚ :=
  (l.map (fun r => r.characteristics.megapixels)).sum

/-- Sum of decode times over a result list. -/
def totalDecodeTime (l : List BenchmarkResult) : ℚ :=
  (l.map (fun r => r.decode_time_ms)).sum

/-- Sum of texture-creation times over a result list. -/
def totalTextureTime (l : List BenchmarkResult) : ℚ :=
  (l.map (fun r => r.texture_creation_time_ms)).sum

/-- The capability record built by the body of
`update_system_capabilities` from the successful results, keeping the
previous averages when the total megapixels are not positive (the
source's `if total_megapixels > 0.0` guards). -/
def updatedCapabilities (successful : List BenchmarkResult)
    (c : SystemCapabilities) : SystemCapabilities :=
  let total_megapixels := totalMegapixels successful
  { max_successful_megapixels := maxMegapixels successful
    avg_decode_time_per_mp :=
      if 0 < total_megapixels then totalDecodeTime successful / total_megapixels
      else c.avg_decode_time_per_mp
    avg_texture_time_per_mp :=
      if 0 < total_megapixels then totalTextureTime successful / total_megapixels
      else c.avg_texture_time_per_mp
    format_performance := formatPerformance successful }

/-- PerformanceProfile::update_system_capabilities from
`src/benchmark.rs`, as a pure state transformer. -/
def PerformanceProfile.update_system_capabilities (p : PerformanceProfile) :
    PerformanceProfile :=
  if p.benchmark_results.isEmpty then p
  else
    let successful := successfulResults p.benchmark_results
    if successful.isEmpty then p
    else
      { p with
        system_capabilities :=
          updatedCapabilities successful p.system_capabilities }

/-- PerformanceProfile::add_benchmark_result from `src/benchmark.rs`. -/
def PerformanceProfile.add_benchmark_result (p : PerformanceProfile)
    (result : BenchmarkResult) : PerformanceProfile :=
  PerformanceProfile.update_system_capabilities
    { p with benchmark_results := p.benchmark_results ++ [result] }

/-- PerformanceProfile::estimate_render_time from `src/benchmark.rs`. -/
def PerformanceProfile.estimate_render_time (p : PerformanceProfile)
    (characteristics : ImageCharacteristics) : ℚ :=
  if p.benchmark_results.isEmpty then 0
  else
    let time_per_mp :=
      match p.system_capabilities.format_performance.lookup characteristics.format with
      | some v => v
      | none =>
          p.system_capabilities.avg_decode_time_per_mp +
            p.system_capabilities.avg_texture_time_per_mp
    time_per_mp * characteristics.megapixels

/-- estimate_image_render_time from `src/image_processing.rs`. The
second component records whether `ImageReader::open` on the path was
reached (header probe); `f.dims` is the combined outcome of
`open` + `into_dimensions`. -/
def estimate_image_render_time (windows : Bool) (f : FileMeta)
    (performance_profile : PerformanceProfile) : Option ℚ × Bool :=
  let file_info := LocalityFileInfo.new windows f
  if file_info.will_trigger_download then (none, false)
  else
    match f.dims with
    | some (w, h) =>
        let format := formatOf f
        let characteristics := ImageCharacteristics.new f w h format
        (some (performance_profile.estimate_render_time characteristics), true)
    | none => (none, true)

/-- benchmark_image from `src/benchmark.rs`. Measured wall-clock
durations are the inputs `decodeT`, `texT`, `totalT`; the second
component of the result records whether the file's content was opened
(`ImageReader::open` + full decode reached). -/
def benchmark_image (windows : Bool) (f : FileMeta) (decodeT texT totalT : ℚ) :
    BenchmarkResult × Bool :=
  let file_info := OneDriveFileInfo.new windows f
  if file_info.will_trigger_download then
    ({ characteristics :=
        { file_size_mb := fileSizeMb f
          width := 0
          height := 0
          megapixels := 0
          format := formatOf f
          bit_depth := none }
       decode_time_ms := 0
       texture_creation_time_ms := 0
       total_time_ms := 0
       success := false
       error_message :=
        some "Skipped OneDrive file to avoid triggering download during benchmark" },
      false)
  else
    match f.decode with
    | some (w, h) =>
        let characteristics := ImageCharacteristics.new f w h (formatOf f)
        if f.textureOk then
          ({ characteristics
             decode_time_ms := decodeT
             texture_creation_time_ms := texT
             total_time_ms := totalT
             success := true
             error_message := none }, true)
        else
          ({ characteristics
             decode_time_ms := decodeT
             texture_creation_time_ms := texT
             total_time_ms := totalT
             success := false
             error_message := some "Texture creation failed" }, true)
    | none =>
        ({ characteristics :=
            { file_size_mb := fileSizeMb f
              width := 0
              height := 0
              megapixels := 0
              format := formatOf f
              bit_depth := none }
           decode_time_ms := decodeT
           texture_creation_time_ms := 0
           total_time_ms := totalT
           success := false
           error_message := some "Failed to decode image" }, true)

/-- find_asset_images from `src/benchmark.rs`: the glob candidates from
the assets folder and from the current directory are the two input
lists; each candidate is kept only when its OneDrive `FileInfo` reports
it will not trigger a download, and the current-directory list is
consulted only when the filtered assets list is empty. -/
def find_asset_images (windows : Bool) (assets cwd : List FileMeta) :
    List FileMeta :=
  let asset_paths :=
    assets.filter (fun f => !(OneDriveFileInfo.new windows f).will_trigger_download)
  if asset_paths.isEmpty then
    cwd.filter (fun f => !(OneDriveFileInfo.new windows f).will_trigger_download)
  else asset_paths

/-- One record's update in `ImageViewerApp::update_file_locality_status`
(`src/app.rs`): recompute the status from the file's current state `f`;
on a change, clear the estimated size only when the file is now local. -/
def update_file_locality_status (windows : Bool) (fi : LocalityFileInfo)
    (f : FileMeta) : LocalityFileInfo :=
  let new_status := get_file_locality_status windows f
  if fi.locality_status ≠ new_status then
    let is_now_local := new_status = FileLocalityStatus.Local
    { fi with
      locality_status := new_status
      estimated_download_size :=
        if is_now_local then none else fi.estimated_download_size }
  else fi

/-- One record's update in
`ImageViewerApp::refresh_all_file_locality_status` (`src/app.rs`): on a
change, clear the size when now local, recompute it from metadata when
now on-demand, and otherwise leave it as it was. -/
def refresh_file_locality_status (windows : Bool) (fi : LocalityFileInfo)
    (f : FileMeta) : LocalityFileInfo :=
  let new_status := get_file_locality_status windows f
  if fi.locality_status ≠ new_status then
    let is_now_local := new_status = FileLocalityStatus.Local
    let is_now_on_demand := new_status = FileLocalityStatus.OnDemand
    { fi with
      locality_status := new_status
      estimated_download_size :=
        if is_now_local then none
        else if is_now_on_demand then (f.metadata).map FsMetadata.len
        else fi.estimated_download_size }
  else fi

/-- refresh_all_file_locality_status from `src/app.rs`, over the tracked
records paired with the current observable state of their files. -/
def refresh_all_file_locality_status (windows : Bool)
    (records : List (LocalityFileInfo × FileMeta)) : List LocalityFileInfo :=
  records.map (fun x => refresh_file_locality_status windows x.1 x.2)

/-- Modelled from the spec: `PerformanceProfile::benchmark_safe_images`
is called by `run_benchmark` in `src/app.rs` but is defined nowhere
under `src/`. Per the spec it benchmarks each selected sample in order
and streams every result into the aggregator (`add_benchmark_result`),
and a run with no qualifying samples completes with zero results. The
list of results the run produces is therefore a parameter. -/
def benchmark_safe_images (p : PerformanceProfile)
    (produced : List BenchmarkResult) : PerformanceProfile :=
  produced.foldl PerformanceProfile.add_benchmark_result p

/-- The slice of `ImageViewerApp` state that `run_benchmark` touches. -/
structure AppBenchState where
  performance_profile : PerformanceProfile
  benchmark_in_progress : Bool
deriving DecidableEq, Repr

/-- ImageViewerApp::run_benchmark from `src/app.rs`: no-op while a run
is in progress; otherwise clears the result list, stamps the run time,
and runs `benchmark_safe_images` (whose produced results are the
parameter `produced`). -/
def run_benchmark (st : AppBenchState) (now : Nat)
    (produced : List BenchmarkResult) : AppBenchState :=
  if st.benchmark_in_progress then st
  else
    let p0 := { st.performance_profile with
                  benchmark_results := []
                  last_benchmark_time := some now }
    let p1 := benchmark_safe_images p0 produced
    { performance_profile := p1, benchmark_in_progress := false }

/-- SafeProbeLimits as the spec describes it. No such record exists
anywhere under `src/`; the definition exists only so that the claims
that quantify over limits can be stated against the code. -/
structure SafeProbeLimits where
  max_file_size_mb : ℚ
  max_megapixels : ℚ
  max_samples : Nat
deriving DecidableEq, Repr

/-- Megapixels a header-only probe of the file would report. -/
def headerMegapixels (f : FileMeta) : Option ℚ :=
  f.dims.map (fun d => ((d.1 : ℚ) * (d.2 : ℚ)) / 1000000)

/-- Statistics recomputed from scratch, as the spec's invariant reads:
`update_system_capabilities` run over the given result list starting
from the default (zeroed) capabilities. -/
def capabilitiesFromScratch (l : List BenchmarkResult) : SystemCapabilities :=
  (PerformanceProfile.update_system_capabilities
    { PerformanceProfile.default with benchmark_results := l }).system_capabilities

/-- The spec's FileRecord invariant: the estimated remote size is `none`
whenever the status is not OnDemand. -/
def sizeInvariant (fi : LocalityFileInfo) : Prop :=
  fi.locality_status ≠ FileLocalityStatus.OnDemand →
    fi.estimated_download_size = none

/-- Profile states reachable by the program's operations: the initial
default profile, adding a result, and the clearing that starts a
benchmark run. -/
inductive PerformanceProfile.Reachable : PerformanceProfile → Prop where
  | init : PerformanceProfile.Reachable PerformanceProfile.default
  | add (p : PerformanceProfile) (r : BenchmarkResult) :
      PerformanceProfile.Reachable p →
      PerformanceProfile.Reachable (p.add_benchmark_result r)
  | runStart (p : PerformanceProfile) (t : Nat) :
      PerformanceProfile.Reachable p →
      PerformanceProfile.Reachable
        { p with benchmark_results := [], last_benchmark_time := some t }

/-- A file whose attribute bits are both UNPINNED and
RECALL_ON_DATA_ACCESS but whose path does not lie inside a
OneDrive/SharePoint folder: the locality classifier says OnDemand, the
OneDrive classifier says NotOneDrive. -/
def sampleOnDemandFile : FileMeta :=
  { metadata := some { attributes := 0x00500000, len := 1048576 }
    dims := some (1000, 1000)
    decode := some (1000, 1000)
    textureOk := true
    ext := some "jpg"
    pathHasOneDrive := false }

/-- A 10 MB, 64-megapixel file with only the UNPINNED bit set outside a
OneDrive folder: locality Unknown, OneDrive status NotOneDrive. -/
def sampleBigUnknownFile : FileMeta :=
  { metadata := some { attributes := 0x00100000, len := 10485760 }
    dims := some (8000, 8000)
    decode := some (8000, 8000)
    textureOk := true
    ext := some "png"
    pathHasOneDrive := false }

/-- A small plain local file (no attribute bits set). -/
def sampleSmallLocalFile : FileMeta :=
  { metadata := some { attributes := 0, len := 1048576 }
    dims := some (100, 100)
    decode := some (100, 100)
    textureOk := true
    ext := some "jpg"
    pathHasOneDrive := false }

/-- An online-only file inside a OneDrive folder (RECALL_ON_DATA_ACCESS
set): both classifiers report it as download-triggering. -/
def sampleOneDriveFile : FileMeta :=
  { metadata := some { attributes := 0x00500000, len := 2097152 }
    dims := some (500, 500)
    decode := some (500, 500)
    textureOk := true
    ext := some "jpg"
    pathHasOneDrive := true }

/-- The successful benchmark result of the spec's Scenario B: a 2.0 MP
jpg decoded in 40 ms with a 10 ms surface step, 50 ms total. -/
def rJpgSuccess : BenchmarkResult :=
  { characteristics :=
      { file_size_mb := 1
        width := 2000
        height := 1000
        megapixels := 2
        format := "jpg"
        bit_depth := none }
    decode_time_ms := 40
    texture_creation_time_ms := 10
    total_time_ms := 50
    success := true
    error_message := none }

/-- A failed benchmark result (decode failure, zero characteristics). -/
def rFailed : BenchmarkResult :=
  { characteristics :=
      { file_size_mb := 3
        width := 0
        height := 0
        megapixels := 0
        format := "png"
        bit_depth := none }
    decode_time_ms := 5
    texture_creation_time_ms := 0
    total_time_ms := 5
    success := false
    error_message := some "Failed to decode image" }

/-- The target of the spec's Scenario B estimate: a 4.0 MP jpg. -/
def targetJpg4MP : ImageCharacteristics :=
  { file_size_mb := 2
    width := 2000
    height := 2000
    megapixels := 4
    format := "jpg"
    bit_depth := none }

lemma updatedCapabilities_irrel (s : List BenchmarkResult)
    (c c' : SystemCapabilities) (h : 0 < totalMegapixels s) :
    updatedCapabilities s c = updatedCapabilities s c' := by
  simp [updatedCapabilities, h]

lemma updatedCapabilities_idem (s : List BenchmarkResult)
    (c : SystemCapabilities) :
    updatedCapabilities s (updatedCapabilities s c) = updatedCapabilities s c := by
  by_cases h : 0 < totalMegapixels s <;> simp [updatedCapabilities, h]

lemma update_system_capabilities_results (p : PerformanceProfile) :
    (p.update_system_capabilities).benchmark_results = p.benchmark_results := by
  unfold PerformanceProfile.update_system_capabilities
  split
  · rfl
  · dsimp only
    split <;> rfl

lemma update_system_capabilities_of_empty (p : PerformanceProfile)
    (h : p.benchmark_results = []) : p.update_system_capabilities = p := by
  unfold PerformanceProfile.update_system_capabilities
  simp [h]

lemma update_system_capabilities_of_no_success (p : PerformanceProfile)
    (h : successfulResults p.benchmark_results = []) :
    p.update_system_capabilities = p := by
  unfold PerformanceProfile.update_system_capabilities
  split
  · rfl
  · simp [h]

lemma update_system_capabilities_idem (p : PerformanceProfile) :
    (p.update_system_capabilities).update_system_capabilities =
      p.update_system_capabilities := by
  by_cases h1 : p.benchmark_results.isEmpty
  · rw [update_system_capabilities_of_empty p (List.isEmpty_iff.mp h1),
      update_system_capabilities_of_empty p (List.isEmpty_iff.mp h1)]
  · by_cases h2 : (successfulResults p.benchmark_results).isEmpty
    · rw [update_system_capabilities_of_no_success p (List.isEmpty_iff.mp h2),
        update_system_capabilities_of_no_success p (List.isEmpty_iff.mp h2)]
    · conv_lhs =>
        rw [PerformanceProfile.update_system_capabilities]
      simp only [update_system_capabilities_results, h1, if_false, h2,
        Bool.false_eq_true, if_neg]
      unfold PerformanceProfile.update_system_capabilities
      simp [h1, h2, updatedCapabilities_idem]

lemma reachable_fixpoint (p : PerformanceProfile)
    (h : PerformanceProfile.Reachable p) :
    p.update_system_capabilities = p := by
  induction h with
  | init => rfl
  | add q r _ _ =>
      exact update_system_capabilities_idem _
  | runStart q t _ _ =>
      exact update_system_capabilities_of_empty _ rfl

lemma update_caps_eq (p : PerformanceProfile)
    (hne : p.benchmark_results ≠ [])
    (hs : successfulResults p.benchmark_results ≠ []) :
    (p.update_system_capabilities).system_capabilities =
      updatedCapabilities (successfulResults p.benchmark_results)
        p.system_capabilities := by
  unfold PerformanceProfile.update_system_capabilities
  simp [hne, hs]

lemma add_rJpgSuccess_eval :
    PerformanceProfile.default.add_benchmark_result rJpgSuccess =
      { benchmark_results := [rJpgSuccess]
        system_capabilities :=
          { max_successful_megapixels := 2
            avg_decode_time_per_mp := 20
            avg_texture_time_per_mp := 5
            format_performance := [("jpg", 25)] }
        last_benchmark_time := none
        reference_comparison := none } := by
  simp [PerformanceProfile.add_benchmark_result,
    PerformanceProfile.update_system_capabilities, PerformanceProfile.default,
    successfulResults, updatedCapabilities, formatPerformance, formatStats,
    addFormatStat, totalMegapixels, totalDecodeTime, totalTextureTime,
    maxMegapixels, rJpgSuccess]
  norm_num

/-- A file whose metadata stat fails. -/
def sampleStatFailFile : FileMeta :=
  { metadata := none
    dims := none
    decode := none
    textureOk := false
    ext := none
    pathHasOneDrive := false }

/-- C1: for every file whose locality classification is OnDemand,
`estimate_image_render_time` returns `none` for every profile state, and
the header/content of the file is never opened (the access flag of the
embedding is `false`; only metadata is consulted on that path). -/
theorem estimate_render_time_none_for_on_demand (windows : Bool) (f : FileMeta)
    (profile : PerformanceProfile)
    (h : get_file_locality_status windows f = FileLocalityStatus.OnDemand) :
    estimate_image_render_time windows f profile = (none, false) := by
  unfold estimate_image_render_time
  simp [LocalityFileInfo.new, LocalityFileInfo.will_trigger_download, h]

/-- Witness for C1 at a concrete on-demand file. -/
theorem estimate_render_time_none_for_on_demand_witness :
    get_file_locality_status true sampleOnDemandFile = FileLocalityStatus.OnDemand ∧
    estimate_image_render_time true sampleOnDemandFile PerformanceProfile.default =
      (none, false) :=
  ⟨by decide,
    estimate_render_time_none_for_on_demand true sampleOnDemandFile
      PerformanceProfile.default (by decide)⟩

/-- C2: on the attribute-bit platform the classifier returns OnDemand
when both the unpinned and recall-on-data-access bits are set, Local
when both are clear, Unknown for any other combination and on metadata
failure; on every other platform it returns Local. -/
theorem locality_classification_cases (f g : FileMeta) (m : FsMetadata)
    (hf : f.metadata = some m) (hg : g.metadata = none) :
    (m.attributes &&& FILE_ATTRIBUTE_UNPINNED ≠ 0 →
      m.attributes &&& FILE_ATTRIBUTE_RECALL_ON_DATA_ACCESS ≠ 0 →
      get_file_locality_status true f = FileLocalityStatus.OnDemand) ∧
    (m.attributes &&& FILE_ATTRIBUTE_UNPINNED = 0 →
      m.attributes &&& FILE_ATTRIBUTE_RECALL_ON_DATA_ACCESS = 0 →
      get_file_locality_status true f = FileLocalityStatus.Local) ∧
    (¬(m.attributes &&& FILE_ATTRIBUTE_UNPINNED ≠ 0 ∧
        m.attributes &&& FILE_ATTRIBUTE_RECALL_ON_DATA_ACCESS ≠ 0) →
      ¬(m.attributes &&& FILE_ATTRIBUTE_UNPINNED = 0 ∧
        m.attributes &&& FILE_ATTRIBUTE_RECALL_ON_DATA_ACCESS = 0) →
      get_file_locality_status true f = FileLocalityStatus.Unknown) ∧
    get_file_locality_status true g = FileLocalityStatus.Unknown ∧
    (∀ f' : FileMeta, get_file_locality_status false f' = FileLocalityStatus.Local) := by
  refine ⟨?_, ?_, ?_, ?_, fun f' => rfl⟩
  · intro hu hr
    unfold get_file_locality_status
    rw [hf]
    simp [bne_iff_ne, hu, hr]
  · intro hu hr
    unfold get_file_locality_status
    rw [hf]
    simp [hu, hr]
  · intro h1 h2
    unfold get_file_locality_status
    rw [hf]
    by_cases hu : m.attributes &&& FILE_ATTRIBUTE_UNPINNED = 0 <;>
      by_cases hr : m.attributes &&& FILE_ATTRIBUTE_RECALL_ON_DATA_ACCESS = 0
    · exact absurd ⟨hu, hr⟩ h2
    · simp [bne_iff_ne, hu, hr]
    · simp [bne_iff_ne, hu, hr]
    · exact absurd ⟨hu, hr⟩ h1
  · simp [get_file_locality_status, hg]

/-- Witness for C2 at concrete files. -/
theorem locality_classification_cases_witness :
    sampleOnDemandFile.metadata = some { attributes := 0x00500000, len := 1048576 } ∧
    sampleStatFailFile.metadata = none ∧
    (((0x00500000 : Nat) &&& FILE_ATTRIBUTE_UNPINNED ≠ 0 →
      (0x00500000 : Nat) &&& FILE_ATTRIBUTE_RECALL_ON_DATA_ACCESS ≠ 0 →
      get_file_locality_status true sampleOnDemandFile = FileLocalityStatus.OnDemand) ∧
    ((0x00500000 : Nat) &&& FILE_ATTRIBUTE_UNPINNED = 0 →
      (0x00500000 : Nat) &&& FILE_ATTRIBUTE_RECALL_ON_DATA_ACCESS = 0 →
      get_file_locality_status true sampleOnDemandFile = FileLocalityStatus.Local) ∧
    (¬((0x00500000 : Nat) &&& FILE_ATTRIBUTE_UNPINNED ≠ 0 ∧
        (0x00500000 : Nat) &&& FILE_ATTRIBUTE_RECALL_ON_DATA_ACCESS ≠ 0) →
      ¬((0x00500000 : Nat) &&& FILE_ATTRIBUTE_UNPINNED = 0 ∧
        (0x00500000 : Nat) &&& FILE_ATTRIBUTE_RECALL_ON_DATA_ACCESS = 0) →
      get_file_locality_status true sampleOnDemandFile = FileLocalityStatus.Unknown) ∧
    get_file_locality_status true sampleStatFailFile = FileLocalityStatus.Unknown ∧
    (∀ f' : FileMeta, get_file_locality_status false f' = FileLocalityStatus.Local)) :=
  ⟨rfl, rfl,
    locality_classification_cases sampleOnDemandFile sampleStatFailFile
      { attributes := 0x00500000, len := 1048576 } rfl rfl⟩

/-- Counterexample to C7: with an empty profile, the render-time
estimate of a readable local file is `some 0`, not `none` (the inner
estimator reports 0.0 for "no data"). -/
theorem estimate_some_zero_on_empty_profile_cex :
    (estimate_image_render_time true sampleSmallLocalFile
        PerformanceProfile.default).1 = some 0 ∧
    (estimate_image_render_time true sampleSmallLocalFile
        PerformanceProfile.default).1 ≠ none := by
  decide

/-- C7 amended: with an empty profile, `estimate_image_render_time`
returns `none` (on-demand or unreadable file) or `some 0` (readable
local file); it never returns a positive estimate. -/
theorem estimate_none_or_zero_on_empty_profile (windows : Bool) (f : FileMeta)
    (p : PerformanceProfile) (h : p.benchmark_results = []) :
    (estimate_image_render_time windows f p).1 = none ∨
      (estimate_image_render_time windows f p).1 = some 0 := by
  unfold estimate_image_render_time
  dsimp only
  split
  · exact Or.inl rfl
  · rcases hd : f.dims with _ | ⟨w, y⟩
    · exact Or.inl (by simp [hd])
    · refine Or.inr ?_
      simp [hd, PerformanceProfile.estimate_render_time, h]

/-- Witness for C7 amended at a concrete local file and empty profile. -/
theorem estimate_none_or_zero_on_empty_profile_witness :
    PerformanceProfile.default.benchmark_results = [] ∧
    ((estimate_image_render_time true sampleSmallLocalFile
        PerformanceProfile.default).1 = none ∨
      (estimate_image_render_time true sampleSmallLocalFile
        PerformanceProfile.default).1 = some 0) :=
  ⟨rfl,
    estimate_none_or_zero_on_empty_profile true sampleSmallLocalFile
      PerformanceProfile.default rfl⟩

/-- C8: after recording one successful 2.0 MP jpg result with decode
40 ms, surface 10 ms and total 50 ms, the per-format rate is 25 ms/MP
and the estimate for a 4.0 MP jpg is 100 ms. -/
theorem estimate_scenario_b :
    (PerformanceProfile.default.add_benchmark_result
        rJpgSuccess).system_capabilities.format_performance = [("jpg", 25)] ∧
    (PerformanceProfile.default.add_benchmark_result
        rJpgSuccess).estimate_render_time targetJpg4MP = 100 := by
  rw [add_rJpgSuccess_eval]
  refine ⟨rfl, ?_⟩
  simp [PerformanceProfile.estimate_render_time, targetJpg4MP]
  norm_num

/-- The spec's LowPower limits tightened to one sample, used as the
concrete limits value refuting C3. -/
def lowPowerLimits : SafeProbeLimits :=
  { max_file_size_mb := 2, max_megapixels := 4, max_samples := 1 }

/-- Counterexample to C3: `find_asset_images` (the sample selector)
returns a 10 MB, 64 MP file of Unknown locality ahead of a smaller
file, exceeding `max_samples = 1`: no limit, ordering or locality
constraint from the claim is enforced. -/
theorem find_asset_images_ignores_limits_cex :
    find_asset_images true [sampleBigUnknownFile, sampleSmallLocalFile] [] =
      [sampleBigUnknownFile, sampleSmallLocalFile] ∧
    lowPowerLimits.max_samples <
      (find_asset_images true [sampleBigUnknownFile, sampleSmallLocalFile] []).length ∧
    ¬ List.Sorted (· ≤ ·)
        ((find_asset_images true
            [sampleBigUnknownFile, sampleSmallLocalFile] []).map fileSizeMb) ∧
    sampleBigUnknownFile ∈
      find_asset_images true [sampleBigUnknownFile, sampleSmallLocalFile] [] ∧
    get_file_locality_status true sampleBigUnknownFile = FileLocalityStatus.Unknown ∧
    lowPowerLimits.max_file_size_mb < fileSizeMb sampleBigUnknownFile ∧
    headerMegapixels sampleBigUnknownFile = some 64 ∧
    lowPowerLimits.max_megapixels < (64 : ℚ) := by
  have hout : find_asset_images true [sampleBigUnknownFile, sampleSmallLocalFile] [] =
      [sampleBigUnknownFile, sampleSmallLocalFile] := by decide
  refine ⟨hout, by decide, ?_, by decide, by decide, ?_, ?_, by norm_num [lowPowerLimits]⟩
  · rw [hout]
    simp [List.sorted_cons, fileSizeMb, sampleBigUnknownFile, sampleSmallLocalFile]
    norm_num
  · norm_num [lowPowerLimits, fileSizeMb, sampleBigUnknownFile]
  · simp [headerMegapixels, sampleBigUnknownFile]
    norm_num

/-- C3 amended: every path returned by `find_asset_images` comes from
one of the two candidate lists and is one whose OneDrive classification
does not trigger a download; no sample-count, file-size, megapixel or
ordering constraint is applied, and the locality classifier is not
consulted. -/
theorem find_asset_images_filters_triggering (windows : Bool)
    (assets cwd : List FileMeta) (f : FileMeta)
    (hf : f ∈ find_asset_images windows assets cwd) :
    (OneDriveFileInfo.new windows f).will_trigger_download = false ∧
    (f ∈ assets ∨ f ∈ cwd) := by
  simp only [find_asset_images] at hf
  split at hf
  · have h := List.mem_filter.mp hf
    exact ⟨by simpa using h.2, Or.inr h.1⟩
  · have h := List.mem_filter.mp hf
    exact ⟨by simpa using h.2, Or.inl h.1⟩

/-- Witness for C3 amended at a concrete candidate list. -/
theorem find_asset_images_filters_triggering_witness :
    sampleSmallLocalFile ∈ find_asset_images true [sampleSmallLocalFile] [] ∧
    ((OneDriveFileInfo.new true sampleSmallLocalFile).will_trigger_download = false ∧
      (sampleSmallLocalFile ∈ [sampleSmallLocalFile] ∨
        sampleSmallLocalFile ∈ ([] : List FileMeta))) :=
  ⟨by decide,
    find_asset_images_filters_triggering true [sampleSmallLocalFile] []
      sampleSmallLocalFile (by decide)⟩

/-- Counterexample to C4: a file with both the unpinned and
recall-on-data-access bits set, but outside a OneDrive/SharePoint path,
is classified OnDemand by the locality classifier, yet `benchmark_image`
opens and decodes it (access flag `true`) and reports success with the
measured timings, instead of the zeroed failure record. -/
theorem benchmark_image_opens_on_demand_cex :
    get_file_locality_status true sampleOnDemandFile = FileLocalityStatus.OnDemand ∧
    (benchmark_image true sampleOnDemandFile 40 10 50).2 = true ∧
    (benchmark_image true sampleOnDemandFile 40 10 50).1.success = true ∧
    (benchmark_image true sampleOnDemandFile 40 10 50).1.decode_time_ms = 40 := by
  decide

/-- C4 amended: for every path whose OneDrive classification triggers a
download (OnlineOnly or PartDownloaded), `benchmark_image` returns the
short-circuit record — success false, zero timings, zero dimensions and
megapixels, metadata-only file size, and the descriptive error — without
opening the file's content; a path the locality classifier calls
OnDemand is only guarded when it lies inside a OneDrive/SharePoint
path. -/
theorem benchmark_image_short_circuits_onedrive (windows : Bool) (f : FileMeta)
    (decodeT texT totalT : ℚ)
    (h : (OneDriveFileInfo.new windows f).will_trigger_download = true) :
    benchmark_image windows f decodeT texT totalT =
      ({ characteristics :=
          { file_size_mb := fileSizeMb f
            width := 0
            height := 0
            megapixels := 0
            format := formatOf f
            bit_depth := none }
         decode_time_ms := 0
         texture_creation_time_ms := 0
         total_time_ms := 0
         success := false
         error_message :=
          some "Skipped OneDrive file to avoid triggering download during benchmark" },
        false) := by
  unfold benchmark_image
  simp [h]

/-- Witness for C4 amended at a concrete online-only OneDrive file. -/
theorem benchmark_image_short_circuits_onedrive_witness :
    (OneDriveFileInfo.new true sampleOneDriveFile).will_trigger_download = true ∧
    benchmark_image true sampleOneDriveFile 40 10 50 =
      ({ characteristics :=
          { file_size_mb := fileSizeMb sampleOneDriveFile
            width := 0
            height := 0
            megapixels := 0
            format := formatOf sampleOneDriveFile
            bit_depth := none }
         decode_time_ms := 0
         texture_creation_time_ms := 0
         total_time_ms := 0
         success := false
         error_message :=
          some "Skipped OneDrive file to avoid triggering download during benchmark" },
        false) :=
  ⟨by decide,
    benchmark_image_short_circuits_onedrive true sampleOneDriveFile 40 10 50 (by decide)⟩

/-- Counterexample to C5: the clearing at the start of a benchmark run
(`run_benchmark`) empties the result list but leaves the previous
capabilities in place, so after a run that finds zero samples the
capabilities differ from the statistics recomputed from scratch over the
current (empty) result list. -/
theorem run_clear_keeps_stale_capabilities_cex :
    (run_benchmark
        { performance_profile := PerformanceProfile.default.add_benchmark_result rJpgSuccess
          benchmark_in_progress := false } 7 []).performance_profile.benchmark_results = [] ∧
    (run_benchmark
        { performance_profile := PerformanceProfile.default.add_benchmark_result rJpgSuccess
          benchmark_in_progress := false } 7
          []).performance_profile.system_capabilities.max_successful_megapixels = 2 ∧
    (run_benchmark
        { performance_profile := PerformanceProfile.default.add_benchmark_result rJpgSuccess
          benchmark_in_progress := false } 7 []).performance_profile.system_capabilities ≠
      capabilitiesFromScratch
        (run_benchmark
          { performance_profile := PerformanceProfile.default.add_benchmark_result rJpgSuccess
            benchmark_in_progress := false } 7 []).performance_profile.benchmark_results := by
  rw [add_rJpgSuccess_eval]
  refine ⟨rfl, rfl, ?_⟩
  intro h
  have h2 := congrArg SystemCapabilities.max_successful_megapixels h
  norm_num [run_benchmark, benchmark_safe_images, capabilitiesFromScratch,
    PerformanceProfile.update_system_capabilities, PerformanceProfile.default] at h2

/-- C5 amended: after `add_benchmark_result` the capabilities equal the
from-scratch statistics whenever the successful results have positive
total megapixels; when no successful result exists they retain their
previous value — in particular the clearing at the start of a run leaves
the previous statistics in place until a successful result arrives. -/
theorem capabilities_recomputed_on_add (p : PerformanceProfile)
    (r : BenchmarkResult) (t : Nat) :
    (0 < totalMegapixels (successfulResults
        ((p.add_benchmark_result r).benchmark_results)) →
      (p.add_benchmark_result r).system_capabilities =
        capabilitiesFromScratch (p.add_benchmark_result r).benchmark_results) ∧
    (successfulResults ((p.add_benchmark_result r).benchmark_results) = [] →
      (p.add_benchmark_result r).system_capabilities = p.system_capabilities) ∧
    (run_benchmark { performance_profile := p, benchmark_in_progress := false } t
        []).performance_profile.system_capabilities = p.system_capabilities := by
  have hres : (p.add_benchmark_result r).benchmark_results =
      p.benchmark_results ++ [r] := by
    unfold PerformanceProfile.add_benchmark_result
    rw [update_system_capabilities_results]
  refine ⟨?_, ?_, rfl⟩
  · intro hpos
    rw [hres] at hpos
    have hs : successfulResults (p.benchmark_results ++ [r]) ≠ [] := by
      intro h0
      rw [h0] at hpos
      simp [totalMegapixels] at hpos
    have hne : p.benchmark_results ++ [r] ≠ [] := by simp
    rw [hres]
    unfold PerformanceProfile.add_benchmark_result capabilitiesFromScratch
    rw [update_caps_eq _ hne hs, update_caps_eq _ hne hs]
    exact updatedCapabilities_irrel _ _ _ hpos
  · intro h0
    rw [hres] at h0
    unfold PerformanceProfile.add_benchmark_result
    rw [update_system_capabilities_of_no_success _ h0]

/-- Witness for C5 amended at a concrete profile and successful result. -/
theorem capabilities_recomputed_on_add_witness :
    0 < totalMegapixels (successfulResults
        ((PerformanceProfile.default.add_benchmark_result
          rJpgSuccess).benchmark_results)) ∧
    (PerformanceProfile.default.add_benchmark_result
        rJpgSuccess).system_capabilities =
      capabilitiesFromScratch
        (PerformanceProfile.default.add_benchmark_result
          rJpgSuccess).benchmark_results :=
  ⟨by
    rw [add_rJpgSuccess_eval]
    norm_num [successfulResults, totalMegapixels, rJpgSuccess],
    (capabilities_recomputed_on_add PerformanceProfile.default rJpgSuccess 0).1
      (by
        rw [add_rJpgSuccess_eval]
        norm_num [successfulResults, totalMegapixels, rJpgSuccess])⟩

/-- Counterexample to C6: a record constructed for an on-demand file
(estimated size populated from metadata) that is then reclassified
Unknown by the refresh keeps its stale estimated size: the refresh
clears the size only when the new status is Local. -/
theorem refresh_unknown_keeps_stale_size_cex :
    (refresh_file_locality_status true
        (LocalityFileInfo.new true sampleOnDemandFile)
        sampleBigUnknownFile).locality_status = FileLocalityStatus.Unknown ∧
    (refresh_file_locality_status true
        (LocalityFileInfo.new true sampleOnDemandFile)
        sampleBigUnknownFile).estimated_download_size = some 1048576 ∧
    (update_file_locality_status true
        (LocalityFileInfo.new true sampleOnDemandFile)
        sampleBigUnknownFile).estimated_download_size = some 1048576 := by
  decide

/-- C6 amended: construction establishes the invariant (size is none
whenever the status is not OnDemand), and both update operations
preserve it except when a record currently OnDemand is reclassified
Unknown, in which case the stale estimated size is retained. -/
theorem locality_size_invariant_preserved (windows : Bool) (f g : FileMeta)
    (fi : LocalityFileInfo) (hinv : sizeInvariant fi)
    (hnu : ¬(fi.locality_status = FileLocalityStatus.OnDemand ∧
      get_file_locality_status windows g = FileLocalityStatus.Unknown)) :
    sizeInvariant (LocalityFileInfo.new windows f) ∧
    sizeInvariant (update_file_locality_status windows fi g) ∧
    sizeInvariant (refresh_file_locality_status windows fi g) := by
  refine ⟨?_, ?_, ?_⟩
  · intro h
    simp only [LocalityFileInfo.new] at h ⊢
    simp [h]
  · intro hS
    unfold update_file_locality_status at hS ⊢
    by_cases hch : fi.locality_status ≠ get_file_locality_status windows g
    · rw [if_pos hch] at hS ⊢
      dsimp only at hS ⊢
      cases hn : get_file_locality_status windows g with
      | Local => simp [hn]
      | OnDemand => rw [hn] at hS; exact absurd rfl hS
      | Unknown =>
          have hfi : fi.locality_status ≠ FileLocalityStatus.OnDemand :=
            fun he => hnu ⟨he, hn⟩
          simp [hn, hinv hfi]
    · rw [if_neg hch] at hS ⊢
      exact hinv hS
  · intro hS
    unfold refresh_file_locality_status at hS ⊢
    by_cases hch : fi.locality_status ≠ get_file_locality_status windows g
    · rw [if_pos hch] at hS ⊢
      dsimp only at hS ⊢
      cases hn : get_file_locality_status windows g with
      | Local => simp [hn]
      | OnDemand => rw [hn] at hS; exact absurd rfl hS
      | Unknown =>
          have hfi : fi.locality_status ≠ FileLocalityStatus.OnDemand :=
            fun he => hnu ⟨he, hn⟩
          simp [hn, hinv hfi]
    · rw [if_neg hch] at hS ⊢
      exact hinv hS

/-- Witness for C6 amended at a concrete record and file states. -/
theorem locality_size_invariant_preserved_witness :
    sizeInvariant (LocalityFileInfo.new true sampleSmallLocalFile) ∧
    ¬((LocalityFileInfo.new true sampleSmallLocalFile).locality_status =
        FileLocalityStatus.OnDemand ∧
      get_file_locality_status true sampleOnDemandFile = FileLocalityStatus.Unknown) ∧
    (sizeInvariant (LocalityFileInfo.new true sampleStatFailFile) ∧
      sizeInvariant (update_file_locality_status true
        (LocalityFileInfo.new true sampleSmallLocalFile) sampleOnDemandFile) ∧
      sizeInvariant (refresh_file_locality_status true
        (LocalityFileInfo.new true sampleSmallLocalFile) sampleOnDemandFile)) :=
  ⟨fun _ => by decide, by decide,
    locality_size_invariant_preserved true sampleStatFailFile sampleOnDemandFile
      (LocalityFileInfo.new true sampleSmallLocalFile) (fun _ => by decide) (by decide)⟩

/-- C10: when the result list is empty or has no successful result,
`update_system_capabilities` is the identity on the profile (every
capability field unchanged); and for every reachable profile, adding a
failed result appends it to the list without altering the existing
statistics. -/
theorem update_frame_on_failures (p q : PerformanceProfile) (r : BenchmarkResult)
    (hp : p.benchmark_results = [] ∨ successfulResults p.benchmark_results = [])
    (hq : PerformanceProfile.Reachable q) (hr : r.success = false) :
    p.update_system_capabilities = p ∧
    (q.add_benchmark_result r).benchmark_results = q.benchmark_results ++ [r] ∧
    (q.add_benchmark_result r).system_capabilities = q.system_capabilities := by
  have hsr : successfulResults (q.benchmark_results ++ [r]) =
      successfulResults q.benchmark_results := by
    simp [successfulResults, List.filter_append, hr]
  refine ⟨?_, ?_, ?_⟩
  · rcases hp with h | h
    · exact update_system_capabilities_of_empty p h
    · exact update_system_capabilities_of_no_success p h
  · unfold PerformanceProfile.add_benchmark_result
    rw [update_system_capabilities_results]
  · have hfix := reachable_fixpoint q hq
    unfold PerformanceProfile.add_benchmark_result
    by_cases hs : successfulResults q.benchmark_results = []
    · rw [update_system_capabilities_of_no_success _ (by simpa [hsr] using hs)]
    · have hqe : q.benchmark_results ≠ [] := by
        intro h0
        rw [h0] at hs
        exact hs rfl
      have hne : q.benchmark_results ++ [r] ≠ [] := by simp
      have hs2 : successfulResults (q.benchmark_results ++ [r]) ≠ [] := by
        rw [hsr]; exact hs
      rw [update_caps_eq _ hne hs2]
      have h2 : updatedCapabilities (successfulResults q.benchmark_results)
          q.system_capabilities = q.system_capabilities := by
        rw [← update_caps_eq q hqe hs, hfix]
      show updatedCapabilities (successfulResults (q.benchmark_results ++ [r]))
          q.system_capabilities = q.system_capabilities
      rw [hsr, h2]

/-- Witness for C10 at the initial profile and a concrete failed
result. -/
theorem update_frame_on_failures_witness :
    (PerformanceProfile.default.benchmark_results = [] ∨
      successfulResults PerformanceProfile.default.benchmark_results = []) ∧
    PerformanceProfile.Reachable PerformanceProfile.default ∧
    rFailed.success = false ∧
    (PerformanceProfile.default.update_system_capabilities = PerformanceProfile.default ∧
      (PerformanceProfile.default.add_benchmark_result rFailed).benchmark_results =
        PerformanceProfile.default.benchmark_results ++ [rFailed] ∧
      (PerformanceProfile.default.add_benchmark_result rFailed).system_capabilities =
        PerformanceProfile.default.system_capabilities) :=
  ⟨Or.inl rfl, PerformanceProfile.Reachable.init, rfl,
    update_frame_on_failures PerformanceProfile.default PerformanceProfile.default
      rFailed (Or.inl rfl) PerformanceProfile.Reachable.init rfl⟩
